import Mathlib

/-!
Shallow embedding of `pyoptoma/__init__.py`: an Optoma projector serial
protocol client.  The module-level tables, the reader thread's frame
decoding and classification (`OptomaThread._readline`, `OptomaThread.run`),
and the `Projector` busy-lock state machine (`__initLock`, `__setLock`,
`__unLock`, `__checkLock`) together with the public operations
`get_property` and `send_command`.

Modelling conventions:
* Python dicts become association lists; `d.get(k)` is a total lookup
  returning `PyVal.pynone` (or `Option`) on a miss, while `d[k]` and a bare
  global name are fallible and return `Except PyError`.
* `time.time()` values are rationals, passed explicitly to each call.
* The serial transport is externalised: the reply that `_sendrecv` would
  read is a parameter, and the frames written are returned as a list.
* Python heterogeneous return values (`False`, `None`, strings) are the
  inductive `PyVal`.
-/

namespace Pyoptoma

/-- Return values of the Python functions: a string, a bool (`False`), or
`None` (also the implicit `None` of a function that falls off the end). -/
inductive PyVal where
  | str (s : String)
  | bool (b : Bool)
  | pynone
deriving DecidableEq

/-- Python exceptions relevant to this module. -/
inductive PyError where
  | nameError (n : String)
  | keyError (k : String)
  | indexError
  | attributeError (msg : String)
  | unicodeDecodeError
deriving DecidableEq

/-- `OPTOMA_COMMANDS`: command identifier to wire frame. -/
def OPTOMA_COMMANDS : List (String × String) :=
  [("TURN_ON", "~0000 1\r"),
   ("TURN_OFF", "~0000 0\r"),
   ("PWR", "~00124 1\r"),
   ("SOURCE", "~00121 1\r"),
   ("DISPLAY_MODE", "~00123 1\r"),
   ("HDMI1", "~0012 1\r"),
   ("HDMI2", "~0012 15\r"),
   ("VGA", "~0012 8\r"),
   ("COMPONENT", "~0012 14\r"),
   ("VIDEO", "~0012 10\r"),
   ("3D_OFF", "~00405 0\r"),
   ("3D_SBS", "~00405 1\r"),
   ("3D_TTB", "~00405 3\r"),
   ("3D_SEQ", "~00405 4\r")]

/-- `SOURCE_LIST`: the source-selection commands (dict used for key
membership in `__setLock`). -/
def SOURCE_LIST : List (String × String) :=
  [("HDMI1", "HDMI1"),
   ("HDMI2", "HDMI2"),
   ("VGA", "VGA"),
   ("COMPONENT", "COMPONENT"),
   ("VIDEO", "VIDEO")]

/-- `TIMEOUT_TIMES`: busy-lock timeout (seconds) per command class. -/
def TIMEOUT_TIMES : List (String × ℚ) :=
  [("TURN_ON", 40),
   ("TURN_OFF", 60),
   ("SOURCE", 2),
   ("ALL", 2)]

/-- `SOURCE_MAP`: 4-character reply code to source name (`OK00` maps to
Python `None`). -/
def SOURCE_MAP : List (String × PyVal) :=
  [("OK00", PyVal.pynone),
   ("OK02", PyVal.str "VGA"),
   ("OK05", PyVal.str "VIDEO"),
   ("OK07", PyVal.str "HDMI1"),
   ("OK08", PyVal.str "HDMI2"),
   ("OK11", PyVal.str "COMPONENT")]

/-- Module constant `TURN_ON`. -/
def TURN_ON : String := "TURN_ON"

/-- Module constant `TURN_OFF`. -/
def TURN_OFF : String := "TURN_OFF"

/-- Module constant `POWER`. -/
def POWER : String := "PWR"

/-- Module constant `SOURCE`. -/
def SOURCE : String := "SOURCE"

/-- Module constant `BUSY`. -/
def BUSY : String := "BUSY"

/-- Python `d.get(k)` on a dict whose values are `PyVal`: total, `None` on a
miss, never raises. -/
def dictGet (d : List (String × PyVal)) (k : String) : PyVal :=
  (d.lookup k).getD PyVal.pynone

/-- Python `s[i]` on a string: `IndexError` when out of range. -/
def pyStrIndex (s : String) (i : Nat) : Except PyError Char :=
  match s.toList.get? i with
  | some c => Except.ok c
  | none => Except.error PyError.indexError

/-! ## OptomaThread: frame decoding and classification -/

/-- `OptomaThread._readline`, driven by an explicit list of bytes that
`self._serial.read(size=1)` yields in order.  Accumulates into `output`,
breaking on `0x0d` (terminator dropped), discarding `0x00` bytes, and
breaking early as soon as the accumulated text equals `INFO1`.  `none` when
the byte list runs out before a frame completes (the real thread would
still be blocked in `read`), or when a byte is not single-byte UTF-8
(`byte.decode` would raise). -/
def readline : String → List Nat → Option String
  | _, [] => none
  | output, b :: rest =>
    if b = 0x0d then some output
    else if 0x80 ≤ b then none
    else
      let output2 := if b ≠ 0x00 then output.push (Char.ofNat b) else output
      if output2 = "INFO1" then some output2
      else readline output2 rest

/-- The reader thread's mutable fields: `_lastline` (initially `None`) and
the `threading.Event` `_recv_event` (set / not set). -/
structure ThreadState where
  lastline : Option String
  recvEvent : Bool
deriving DecidableEq

/-- Fresh `OptomaThread` state. -/
def initThread : ThreadState := ⟨none, false⟩

/-- What one iteration of `OptomaThread.run` does with a decoded frame:
either dispatch it as an event (`self._notify_event(line)` then `continue`)
or store it as the latest reply and signal the receive event. -/
inductive RunAction where
  | dispatchEvent (name : String)
  | storeReply (line : String)
deriving DecidableEq

/-- One iteration of the `OptomaThread.run` loop body on a decoded frame:
`if len(line)==5 and line[0]=='I'` dispatches and leaves the reply slot and
event untouched; otherwise the frame is stored in `_lastline` and
`_recv_event` is set. -/
def runStep (line : String) (ts : ThreadState) : RunAction × ThreadState :=
  if line.length = 5 ∧ line.toList.get? 0 = some 'I' then
    (RunAction.dispatchEvent line, ts)
  else
    (RunAction.storeReply line, ⟨some line, true⟩)

/-! ## Projector busy-lock state machine -/

/-- The `Projector` lock fields: `_isLocked`, `_timer`, `_operation`
(Python `False` before any lock is taken, modelled as `none`; a command
class string while locked). -/
structure LockState where
  isLocked : Bool
  timer : ℚ
  operation : Option String
deriving DecidableEq

/-- `Projector.__initLock`: `_isLocked = False`, `_timer = 0`,
`_operation = False`. -/
def initLock : LockState := ⟨false, 0, none⟩

/-- `Projector.__unLock`: reset all three fields. -/
def unLock (_st : LockState) : LockState := ⟨false, 0, none⟩

/-- `Projector.__setLock(command)` at time `now`.  Power commands keep their
own name as the class; source-selection commands (keys of `SOURCE_LIST`)
map to `SOURCE`.  The `else` branch executes `self._operation = ALL`, and
the module never defines a global `ALL` (only the string key exists in
`TIMEOUT_TIMES`), so evaluating the bare name raises `NameError` before any
field is mutated. -/
def setLock (command : String) (now : ℚ) (_st : LockState) :
    Except PyError LockState :=
  if command = TURN_ON ∨ command = TURN_OFF then
    Except.ok ⟨true, now, some command⟩
  else if (SOURCE_LIST.lookup command).isSome then
    Except.ok ⟨true, now, some SOURCE⟩
  else
    Except.error (PyError.nameError "ALL")

/-- `Projector.__checkLock` at time `now`: `(busy, new state)`.  When
locked, `TIMEOUT_TIMES[self._operation]` is a raising dict index
(`KeyError` when the operation is not a key; `_operation = False` is also
not a key).  Expiry is strict: unlock only when `now - timer` strictly
exceeds the class timeout. -/
def checkLock (now : ℚ) (st : LockState) : Except PyError (Bool × LockState) :=
  if st.isLocked then
    match st.operation with
    | some op =>
      match TIMEOUT_TIMES.lookup op with
      | some tmo =>
        if now - st.timer > tmo then Except.ok (false, unLock st)
        else Except.ok (true, st)
      | none => Except.error (PyError.keyError op)
    | none => Except.error (PyError.keyError "False")
  else
    Except.ok (false, st)

/-- `Projector.__checkLock` called repeatedly, once per listed time,
threading the lock state; `(busy results in order, final state)`. -/
def checkLockIter : List ℚ → LockState → Except PyError (List Bool × LockState)
  | [], st => Except.ok ([], st)
  | t :: ts, st =>
    match checkLock t st with
    | Except.error e => Except.error e
    | Except.ok (b, st1) =>
      match checkLockIter ts st1 with
      | Except.error e => Except.error e
      | Except.ok (bs, st2) => Except.ok (b :: bs, st2)

/-- `Projector.__get_timeout(command)`: the command's own entry when
present, else `TIMEOUT_TIMES['ALL']`. -/
def get_timeout (command : String) : ℚ :=
  match TIMEOUT_TIMES.lookup command with
  | some t => t
  | none => (TIMEOUT_TIMES.lookup "ALL").getD 0

/-! ## Protocol facade -/

/-- The `try:` block of `Projector.get_property` decoding a non-empty
reply.  `response[2]` is a raising index (guarded by the length test and
Python's short-circuit `if`), `SOURCE_MAP.get(response)` is the non-raising
dict get.  When neither branch returns, the function falls through to the
implicit `None`. -/
def get_property_decode (command response : String) : Except PyError PyVal :=
  if command = "PWR" ∧ response.length = 3 then
    match pyStrIndex response 2 with
    | Except.error e => Except.error e
    | Except.ok c =>
      if c = '1' then Except.ok (PyVal.str "on")
      else if c = '0' then Except.ok (PyVal.str "off")
      else
        if command = "SOURCE" ∧ response.length = 4 then
          Except.ok (dictGet SOURCE_MAP response)
        else Except.ok PyVal.pynone
  else
    if command = "SOURCE" ∧ response.length = 4 then
      Except.ok (dictGet SOURCE_MAP response)
    else Except.ok PyVal.pynone

/-- `Projector.get_property(command)` at time `now`, with `response` the
reply `_sendrecv` returns: busy check first (`BUSY` when the lock is held),
then the unused `timeout = self.__get_timeout(command)`, then the send
(`OPTOMA_COMMANDS.get(command)` of an unknown command is `None`, whose
`.encode` raises `AttributeError`), `False` on an empty (falsy) reply, and
the `try`/`except KeyError: return BUSY` around the decode. -/
def get_property (command : String) (now : ℚ) (response : String)
    (st : LockState) : Except PyError (PyVal × LockState) :=
  match checkLock now st with
  | Except.error e => Except.error e
  | Except.ok (true, st1) => Except.ok (PyVal.str BUSY, st1)
  | Except.ok (false, st1) =>
    let _timeout := get_timeout command
    match OPTOMA_COMMANDS.lookup command with
    | none => Except.error (PyError.attributeError "NoneType.encode")
    | some _frame =>
      if response = "" then Except.ok (PyVal.bool false, st1)
      else
        match get_property_decode command response with
        | Except.ok v => Except.ok (v, st1)
        | Except.error (PyError.keyError _) => Except.ok (PyVal.str BUSY, st1)
        | Except.error e => Except.error e

/-- `Projector.send_command(command)` at time `now`, with `ack` the reply
`_sendrecv` returns: `(result, lock state, frames written)`.  Busy check
first — `False` with nothing written when busy; otherwise `__setLock`,
the write of the command's frame, then `'OK'` on ack `'P'`, `'BUSY'` on ack
`'F'`, and the implicit `None` on any other ack. -/
def send_command (command : String) (now : ℚ) (ack : String)
    (st : LockState) : Except PyError (PyVal × LockState × List String) :=
  match checkLock now st with
  | Except.error e => Except.error e
  | Except.ok (true, st1) => Except.ok (PyVal.bool false, st1, [])
  | Except.ok (false, st1) =>
    match setLock command now st1 with
    | Except.error e => Except.error e
    | Except.ok st2 =>
      match OPTOMA_COMMANDS.lookup command with
      | none => Except.error (PyError.attributeError "NoneType.encode")
      | some frame =>
        if ack = "P" then Except.ok (PyVal.str "OK", st2, [frame])
        else if ack = "F" then Except.ok (PyVal.str BUSY, st2, [frame])
        else Except.ok (PyVal.pynone, st2, [frame])

/-- The lock state `send_command "TURN_ON"` leaves behind at time `now`. -/
def lockedTurnOn (now : ℚ) : LockState := ⟨true, now, some "TURN_ON"⟩

end Pyoptoma

namespace Pyoptoma

/-! ## Helper lemmas -/

/-- A successful `List.lookup` returns one of the list's values. -/
theorem lookup_mem {α β : Type} [BEq α] (l : List (α × β)) (a : α) (b : β)
    (h : l.lookup a = some b) : b ∈ l.map Prod.snd := by
  induction l with
  | nil => simp [List.lookup] at h
  | cons p l ih =>
    obtain ⟨k, bv⟩ := p
    rw [List.lookup] at h
    cases hak : a == k with
    | true => rw [hak] at h; simp at h; simp [h]
    | false => rw [hak] at h; simp [ih h]

/-- `__checkLock` on an unlocked state: not busy, state untouched. -/
theorem checkLock_of_unlocked (now : ℚ) (st : LockState)
    (h : st.isLocked = false) : checkLock now st = Except.ok (false, st) := by
  unfold checkLock
  rw [h]
  simp

/-- `SOURCE_MAP.get` never yields the string `BUSY`. -/
theorem dictGet_SOURCE_MAP_ne_busy (r : String) :
    dictGet SOURCE_MAP r ≠ PyVal.str "BUSY" := by
  unfold dictGet
  cases h0 : SOURCE_MAP.lookup r with
  | none => simp
  | some v =>
    have hv := lookup_mem _ _ _ h0
    simp only [SOURCE_MAP, List.map, List.mem_cons, List.not_mem_nil, or_false] at hv
    rcases hv with rfl | rfl | rfl | rfl | rfl | rfl <;> simp

/-- The `try:` body of `get_property` always produces a value. -/
theorem get_property_decode_ok (command response : String) :
    ∃ v, get_property_decode command response = Except.ok v := by
  by_cases h1 : command = "PWR" ∧ response.length = 3
  · have h2 : 2 < response.toList.length := by
      have : response.toList.length = 3 := h1.2
      omega
    obtain ⟨c, hc⟩ : ∃ c, pyStrIndex response 2 = Except.ok c := by
      unfold pyStrIndex
      rw [List.get?_eq_get h2]
      exact ⟨_, rfl⟩
    unfold get_property_decode
    rw [if_pos h1, hc]
    show ∃ v, (if c = '1' then Except.ok (PyVal.str "on")
      else if c = '0' then Except.ok (PyVal.str "off")
      else
        if command = "SOURCE" ∧ response.length = 4 then
          Except.ok (dictGet SOURCE_MAP response)
        else Except.ok PyVal.pynone) = Except.ok v
    split_ifs <;> exact ⟨_, rfl⟩
  · unfold get_property_decode
    rw [if_neg h1]
    split_ifs <;> exact ⟨_, rfl⟩

/-- A value of the `try:` body is never the string `BUSY`. -/
theorem get_property_decode_ne_busy (command response : String) (v : PyVal)
    (hv : get_property_decode command response = Except.ok v) :
    v ≠ PyVal.str "BUSY" := by
  unfold get_property_decode at hv
  split at hv
  · split at hv
    · cases hv
    · split_ifs at hv <;> cases hv <;>
        first
          | decide
          | exact dictGet_SOURCE_MAP_ne_busy response
  · split_ifs at hv <;> cases hv <;>
      first
        | decide
        | exact dictGet_SOURCE_MAP_ne_busy response


/-! ## Claim theorems -/

/-- Claim C1 (code bug evaluation): a command outside the power and
source-selection classes does not classify as Generic; `__setLock` reads
the undefined module-level name `ALL` and raises `NameError`, which
propagates out of `send_command` before anything is written. -/
theorem setLock_generic_command_raises_nameError :
    setLock "3D_OFF" 0 initLock = Except.error (PyError.nameError "ALL") ∧
    setLock "DISPLAY_MODE" 0 initLock = Except.error (PyError.nameError "ALL") ∧
    send_command "3D_OFF" 0 "P" initLock = Except.error (PyError.nameError "ALL") :=
  ⟨rfl, rfl, rfl⟩

/-- Claim C2: `send_command "TURN_ON"` while unlocked locks with the
Power-On class and writes the power-on frame; ack `P` gives `OK`, ack `F`
gives `BUSY`; any `send_command` within the 40-second Power-On timeout
returns `False` and writes nothing. -/
theorem send_command_turn_on_locks_and_second_call_busy
    (now later : ℚ) (c2 ack : String) (h : later - now ≤ 40) :
    send_command "TURN_ON" now "P" initLock
      = Except.ok (PyVal.str "OK", lockedTurnOn now, ["~0000 1\r"]) ∧
    send_command "TURN_ON" now "F" initLock
      = Except.ok (PyVal.str "BUSY", lockedTurnOn now, ["~0000 1\r"]) ∧
    send_command c2 later ack (lockedTurnOn now)
      = Except.ok (PyVal.bool false, lockedTurnOn now, []) := by
  refine ⟨rfl, rfl, ?_⟩
  have hb : checkLock later (lockedTurnOn now) = Except.ok (true, lockedTurnOn now) := by
    unfold checkLock lockedTurnOn
    norm_num [TIMEOUT_TIMES, List.lookup]
    linarith
  unfold send_command
  rw [hb]

/-- Claim C2 witness at `now = 0`, second call at `later = 40`. -/
theorem send_command_turn_on_locks_and_second_call_busy_witness :
    send_command "TURN_ON" 0 "P" initLock
      = Except.ok (PyVal.str "OK", lockedTurnOn 0, ["~0000 1\r"]) ∧
    send_command "TURN_ON" 0 "F" initLock
      = Except.ok (PyVal.str "BUSY", lockedTurnOn 0, ["~0000 1\r"]) ∧
    send_command "TURN_OFF" 40 "P" (lockedTurnOn 0)
      = Except.ok (PyVal.bool false, lockedTurnOn 0, []) :=
  send_command_turn_on_locks_and_second_call_busy 0 40 "TURN_OFF" "P" (by norm_num)

/-- Claim C3 counterexample: no reply (for any command) makes the decode
body raise `KeyError`, so the `except KeyError: return BUSY` path is
unreachable — the claimed reply does not exist. -/
theorem get_property_decode_never_keyError :
    ¬ ∃ command response k,
        get_property_decode command response = Except.error (PyError.keyError k) := by
  rintro ⟨command, response, k, h⟩
  obtain ⟨v, hv⟩ := get_property_decode_ok command response
  rw [hv] at h
  cases h

/-- Claim C3 amended: decode failures never degrade to the Busy sentinel;
when the lock check reports not busy, `get_property` never returns `BUSY`
(lookup misses go through the non-raising `dict.get` and yield `None`). -/
theorem get_property_not_busy_never_returns_busy
    (command : String) (now : ℚ) (response : String) (st : LockState)
    (h : st.isLocked = false) (v : PyVal) (st2 : LockState)
    (hv : get_property command now response st = Except.ok (v, st2)) :
    v ≠ PyVal.str BUSY := by
  unfold get_property at hv
  rw [checkLock_of_unlocked now st h] at hv
  dsimp only at hv
  cases hcmd : OPTOMA_COMMANDS.lookup command with
  | none => rw [hcmd] at hv; cases hv
  | some frame =>
    rw [hcmd] at hv
    dsimp only at hv
    split_ifs at hv
    · simp only [Except.ok.injEq, Prod.mk.injEq] at hv
      obtain ⟨rfl, rfl⟩ := hv
      decide
    · cases hdec : get_property_decode command response with
      | ok w =>
        rw [hdec] at hv
        dsimp only at hv
        simp only [Except.ok.injEq, Prod.mk.injEq] at hv
        obtain ⟨rfl, rfl⟩ := hv
        exact get_property_decode_ne_busy command response _ hdec
      | error e =>
        exfalso
        obtain ⟨w, hw⟩ := get_property_decode_ok command response
        rw [hw] at hdec
        cases hdec

/-- Claim C3 amended witness: a decoded source value is not the Busy
sentinel. -/
theorem get_property_not_busy_never_returns_busy_witness :
    PyVal.str "HDMI1" ≠ PyVal.str BUSY :=
  get_property_not_busy_never_returns_busy "SOURCE" 0 "OK07" initLock rfl
    (PyVal.str "HDMI1") initLock rfl


/-- `get_property` when unlocked and the reply is empty: the `False`
("no data") result. -/
theorem get_property_unlocked_empty (command : String) (now : ℚ)
    (st : LockState) (h : st.isLocked = false) (frame : String)
    (hcmd : OPTOMA_COMMANDS.lookup command = some frame) :
    get_property command now "" st = Except.ok (PyVal.bool false, st) := by
  unfold get_property
  rw [checkLock_of_unlocked now st h]
  dsimp only
  rw [hcmd]
  dsimp only
  rw [if_pos rfl]

/-- `get_property` when unlocked on a non-empty reply returns whatever the
decode body yields. -/
theorem get_property_unlocked_decode (command : String) (now : ℚ)
    (response : String) (st : LockState) (h : st.isLocked = false)
    (frame : String) (hcmd : OPTOMA_COMMANDS.lookup command = some frame)
    (hne : response ≠ "") (v : PyVal)
    (hdec : get_property_decode command response = Except.ok v) :
    get_property command now response st = Except.ok (v, st) := by
  unfold get_property
  rw [checkLock_of_unlocked now st h]
  dsimp only
  rw [hcmd]
  dsimp only
  rw [if_neg hne, hdec]

/-- Claim C4: `get_property "SOURCE"` when not busy looks the 4-character
reply up in `SOURCE_MAP`: `OK07` gives `HDMI1`, and any 4-character code
absent from the table (such as `OK99`) gives `None`. -/
theorem get_property_source_lookup (now : ℚ) (st : LockState)
    (h : st.isLocked = false) :
    get_property "SOURCE" now "OK07" st = Except.ok (PyVal.str "HDMI1", st) ∧
    get_property "SOURCE" now "OK99" st = Except.ok (PyVal.pynone, st) ∧
    ∀ response, response.length = 4 → SOURCE_MAP.lookup response = none →
      get_property "SOURCE" now response st = Except.ok (PyVal.pynone, st) := by
  refine ⟨?_, ?_, ?_⟩
  · exact get_property_unlocked_decode "SOURCE" now "OK07" st h _ rfl (by decide) _ rfl
  · exact get_property_unlocked_decode "SOURCE" now "OK99" st h _ rfl (by decide) _ rfl
  · intro response hlen hmiss
    have hne : response ≠ "" := by
      intro e
      rw [e] at hlen
      simp at hlen
    have hdec : get_property_decode "SOURCE" response = Except.ok PyVal.pynone := by
      unfold get_property_decode
      rw [if_neg (by simp), if_pos ⟨rfl, hlen⟩]
      unfold dictGet
      rw [hmiss]
      rfl
    exact get_property_unlocked_decode "SOURCE" now response st h _ rfl hne _ hdec

/-- Claim C4 witness at `initLock`, with `OKXY` the concrete unknown code
for the universally quantified part. -/
theorem get_property_source_lookup_witness :
    get_property "SOURCE" 0 "OK07" initLock = Except.ok (PyVal.str "HDMI1", initLock) ∧
    get_property "SOURCE" 0 "OK99" initLock = Except.ok (PyVal.pynone, initLock) ∧
    get_property "SOURCE" 0 "OKXY" initLock = Except.ok (PyVal.pynone, initLock) :=
  ⟨(get_property_source_lookup 0 initLock rfl).1,
   (get_property_source_lookup 0 initLock rfl).2.1,
   (get_property_source_lookup 0 initLock rfl).2.2 "OKXY" rfl rfl⟩

/-- Claim C5: `_readline` drops an embedded null byte and the terminating
carriage return (`A \x00 B \r` decodes to `AB`), and terminates early on
the accumulated text `INFO1` with no terminator. -/
theorem readline_null_filtered_and_info1_early :
    readline "" [0x41, 0x00, 0x42, 0x0d] = some "AB" ∧
    readline "" [0x49, 0x4e, 0x46, 0x4f, 0x31] = some "INFO1" :=
  ⟨by decide, by decide⟩

/-- Claim C6: the reader loop dispatches exactly the 5-character frames
starting with `I` as events, leaving the reply slot and its signal
untouched; every other frame is stored as the latest reply with the
receive event set, and is not dispatched. -/
theorem runStep_event_reply_routing (line : String) (ts : ThreadState) :
    ((line.length = 5 ∧ line.toList.get? 0 = some 'I') →
      runStep line ts = (RunAction.dispatchEvent line, ts)) ∧
    (¬(line.length = 5 ∧ line.toList.get? 0 = some 'I') →
      runStep line ts = (RunAction.storeReply line, ⟨some line, true⟩)) := by
  constructor
  · intro h
    unfold runStep
    rw [if_pos h]
  · intro h
    unfold runStep
    rw [if_neg h]

/-- Claim C6 witness: `INFO0` is dispatched, `OK1` is stored and
signalled. -/
theorem runStep_event_reply_routing_witness :
    runStep "INFO0" initThread = (RunAction.dispatchEvent "INFO0", initThread) ∧
    runStep "OK1" initThread = (RunAction.storeReply "OK1", ⟨some "OK1", true⟩) :=
  ⟨(runStep_event_reply_routing "INFO0" initThread).1 (by decide),
   (runStep_event_reply_routing "OK1" initThread).2 (by decide)⟩

/-- Claim C7: while locked, any `__checkLock` call with elapsed time at
most the active class timeout reports busy and leaves the state as it is;
a call strictly past the timeout unlocks and reports not busy. -/
theorem checkLock_expiry_boundary (op : String) (tmo t0 now : ℚ)
    (hop : TIMEOUT_TIMES.lookup op = some tmo) :
    (now - t0 ≤ tmo →
      checkLock now ⟨true, t0, some op⟩ = Except.ok (true, ⟨true, t0, some op⟩)) ∧
    (now - t0 > tmo →
      checkLock now ⟨true, t0, some op⟩ = Except.ok (false, ⟨false, 0, none⟩)) := by
  constructor
  · intro hle
    unfold checkLock
    rw [if_pos rfl]
    dsimp only
    rw [hop]
    dsimp only
    rw [if_neg (not_lt.mpr hle)]
  · intro hgt
    unfold checkLock
    rw [if_pos rfl]
    dsimp only
    rw [hop]
    dsimp only
    rw [if_pos hgt]
    rfl

/-- Claim C7 witness with the Power-On class: at exactly 40 seconds the
lock still reports busy; at 41 seconds it expires. -/
theorem checkLock_expiry_boundary_witness :
    checkLock 40 (lockedTurnOn 0) = Except.ok (true, lockedTurnOn 0) ∧
    checkLock 41 (lockedTurnOn 0) = Except.ok (false, initLock) :=
  ⟨(checkLock_expiry_boundary "TURN_ON" 40 0 40 rfl).1 (by norm_num),
   (checkLock_expiry_boundary "TURN_ON" 40 0 41 rfl).2 (by norm_num)⟩

/-- Claim C8: `get_property "PWR"` when not busy: empty reply gives the
`False` "no data" result; a 3-character reply ending in `1` or `0` decodes
to `on` or `off`; any other length falls through to `None`. -/
theorem get_property_pwr_decode (now : ℚ) (st : LockState) (response : String)
    (h : st.isLocked = false) :
    (get_property "PWR" now "" st = Except.ok (PyVal.bool false, st)) ∧
    (response.length = 3 → response.toList.get? 2 = some '1' →
      get_property "PWR" now response st = Except.ok (PyVal.str "on", st)) ∧
    (response.length = 3 → response.toList.get? 2 = some '0' →
      get_property "PWR" now response st = Except.ok (PyVal.str "off", st)) ∧
    (response ≠ "" → response.length ≠ 3 →
      get_property "PWR" now response st = Except.ok (PyVal.pynone, st)) := by
  refine ⟨get_property_unlocked_empty "PWR" now st h _ rfl, ?_, ?_, ?_⟩
  · intro hlen hc
    have hne : response ≠ "" := by
      intro e
      rw [e] at hlen
      simp at hlen
    refine get_property_unlocked_decode "PWR" now response st h _ rfl hne _ ?_
    unfold get_property_decode
    rw [if_pos ⟨rfl, hlen⟩]
    unfold pyStrIndex
    rw [hc]
    rfl
  · intro hlen hc
    have hne : response ≠ "" := by
      intro e
      rw [e] at hlen
      simp at hlen
    refine get_property_unlocked_decode "PWR" now response st h _ rfl hne _ ?_
    unfold get_property_decode
    rw [if_pos ⟨rfl, hlen⟩]
    unfold pyStrIndex
    rw [hc]
    rfl
  · intro hne hlen
    refine get_property_unlocked_decode "PWR" now response st h _ rfl hne _ ?_
    unfold get_property_decode
    rw [if_neg (by simp [hlen]), if_neg (by simp)]

/-- Claim C8 witness: replies `OK1`, `OK0`, the empty reply and the
4-character `OKAY`. -/
theorem get_property_pwr_decode_witness :
    get_property "PWR" 0 "" initLock = Except.ok (PyVal.bool false, initLock) ∧
    get_property "PWR" 0 "OK1" initLock = Except.ok (PyVal.str "on", initLock) ∧
    get_property "PWR" 0 "OK0" initLock = Except.ok (PyVal.str "off", initLock) ∧
    get_property "PWR" 0 "OKAY" initLock = Except.ok (PyVal.pynone, initLock) :=
  ⟨(get_property_pwr_decode 0 initLock "" rfl).1,
   (get_property_pwr_decode 0 initLock "OK1" rfl).2.1 rfl rfl,
   (get_property_pwr_decode 0 initLock "OK0" rfl).2.2.1 rfl rfl,
   (get_property_pwr_decode 0 initLock "OKAY" rfl).2.2.2 (by decide) (by decide)⟩

/-- Claim C9: while unlocked, `__checkLock` never mutates the lock state
and reports not busy on every one of any number of successive calls. -/
theorem checkLock_unlocked_idempotent (times : List ℚ) (st : LockState)
    (h : st.isLocked = false) :
    checkLockIter times st = Except.ok (times.map fun _ => false, st) := by
  induction times with
  | nil => rfl
  | cons t ts ih =>
    unfold checkLockIter
    rw [checkLock_of_unlocked t st h]
    dsimp only
    rw [ih]
    rfl

/-- Claim C9 witness: three calls on the freshly initialised lock. -/
theorem checkLock_unlocked_idempotent_witness :
    checkLockIter [0, 100, 12345] initLock
      = Except.ok ([false, false, false], initLock) :=
  checkLock_unlocked_idempotent [0, 100, 12345] initLock rfl

/-- Claim C10: with the lock free and an acknowledgment that is neither
`P` nor `F`, `send_command` falls off the end and returns `None` — no
dedicated protocol-error value exists. -/
theorem send_command_unknown_ack_returns_none (command : String) (now : ℚ)
    (ack : String) (st st2 : LockState) (frame : String)
    (h : st.isLocked = false)
    (hset : setLock command now st = Except.ok st2)
    (hcmd : OPTOMA_COMMANDS.lookup command = some frame)
    (hP : ack ≠ "P") (hF : ack ≠ "F") :
    send_command command now ack st = Except.ok (PyVal.pynone, st2, [frame]) := by
  unfold send_command
  rw [checkLock_of_unlocked now st h]
  dsimp only
  rw [hset]
  dsimp only
  rw [hcmd]
  dsimp only
  rw [if_neg hP, if_neg hF]

/-- Claim C10 witness: `TURN_ON` with an empty acknowledgment. -/
theorem send_command_unknown_ack_returns_none_witness :
    send_command "TURN_ON" 5 "" initLock
      = Except.ok (PyVal.pynone, lockedTurnOn 5, ["~0000 1\r"]) :=
  send_command_unknown_ack_returns_none "TURN_ON" 5 "" initLock (lockedTurnOn 5)
    "~0000 1\r" rfl rfl rfl (by decide) (by decide)

end Pyoptoma
